import Mathlib

/-!
# Verification of the scholarship-application route layer

Shallow embedding of `src/api/routes.py` (the only source file of the
repository) together with the collaborator interfaces it calls into.
The route layer is pure delegation: every handler forwards its arguments
to a controller method of `ScholarshipController` or
`ApplicationController` and returns the result unchanged. Those
controllers, the request schemas (`core.models`) and the web framework's
request parsing live outside `src/`, so they are modelled here from the
specification, with explicit state passing for the application/task
store.
-/

/-- A scholarship record as surfaced by listing and search: identifying
name, application deadline, eligibility criteria and country. -/
structure Scholarship where
  name : String
  deadline : String
  eligibility : String
  country : String
deriving Repr, DecidableEq

/-- Modelled from the spec: the `ApplicationCreate` request shape of
`core.models` (not under `src/`): the payload references one scholarship
and carries the applicant fields. -/
structure ApplicationCreate where
  scholarship_name : String
  applicant_name : String
deriving Repr, DecidableEq

/-- Modelled from the spec: the `Application` response entity: identifier
assigned at creation by the collaborator, the submitted data and a status. -/
structure Application where
  id : String
  scholarship_name : String
  applicant_name : String
  status : String
deriving Repr, DecidableEq

/-- Modelled from the spec: the `TaskCreate` request shape of `core.models`
(not under `src/`): a roadmap item tied to one application, with a start
date and an end date. -/
structure TaskCreate where
  application_id : String
  start_date : String
  end_date : String
deriving Repr, DecidableEq

/-- Modelled from the spec: the `Task` response entity (named `RoadmapTask`
here because Lean reserves `Task`): identifier assigned at creation;
belongs to exactly one application via `application_id`. -/
structure RoadmapTask where
  id : String
  application_id : String
  start_date : String
  end_date : String
deriving Repr, DecidableEq

/-- Modelled from the spec: the state of the scholarship collaborator.
The corpus of scholarship records is read-only; the semantic search engine
behind the search endpoint is out of scope of the visible code, so it is
carried abstractly as a relevance test `rel` and a relevance score `score`
(the replaceable ranking strategy the spec describes). -/
structure ScholarshipDB where
  corpus : List Scholarship
  rel : String → Scholarship → Bool
  score : String → Scholarship → Nat

/-- Modelled from the spec: the state of the application/task provider
(persistence collaborator behind `ApplicationController`, not under
`src/`): the stored applications and tasks plus fresh-identifier counters. -/
structure AppState where
  applications : List Application
  tasks : List RoadmapTask
  nextAppId : Nat
  nextTaskId : Nat
deriving Repr

/-- Modelled from the spec: the identifier the collaborator assigns to the
n-th created application. -/
def appIdOf (n : Nat) : String := "app-" ++ toString n

/-- Modelled from the spec: the identifier the collaborator assigns to the
n-th created task. -/
def taskIdOf (n : Nat) : String := "task-" ++ toString n

/-- Stable descending insertion by `score`: places `s` before the first
element of strictly smaller score. -/
def insertRanked (score : Scholarship → Nat) (s : Scholarship) :
    List Scholarship → List Scholarship
  | [] => [s]
  | t :: ts =>
    if score t < score s then s :: t :: ts else t :: insertRanked score s ts

/-- Orders a list of scholarships by descending relevance score. -/
def rankedBy (score : Scholarship → Nat) (l : List Scholarship) :
    List Scholarship :=
  l.foldr (insertRanked score) []

/-- Modelled from the spec: `ScholarshipController.get_all_scholarships`
(controller not under `src/`): `list(limit) -> [Scholarship]`, an ordered
sequence of at most `limit` records. A Python `int` is an arbitrary
integer, hence `limit : Int`. -/
def ScholarshipController.get_all_scholarships (db : ScholarshipDB)
    (limit : Int) : List Scholarship :=
  db.corpus.take limit.toNat

/-- Modelled from the spec: `ScholarshipController.search_scholarship`
(controller not under `src/`): `search(query, k) -> [Scholarship]`, the
top-k relevance-ordered records that are semantically relevant to the
query. -/
def ScholarshipController.search_scholarship (db : ScholarshipDB)
    (query : String) (k : Nat) : List Scholarship :=
  (rankedBy (db.score query) (db.corpus.filter (db.rel query))).take k

/-- Modelled from the spec: `ApplicationController.create_application`
(controller not under `src/`): `createApplication(data) -> Application`,
storing a new record with a collaborator-assigned identifier. -/
def ApplicationController.create_application (st : AppState)
    (d : ApplicationCreate) : Application × AppState :=
  let app : Application :=
    { id := appIdOf st.nextAppId
      scholarship_name := d.scholarship_name
      applicant_name := d.applicant_name
      status := "created" }
  (app, { st with
            applications := st.applications ++ [app]
            nextAppId := st.nextAppId + 1 })

/-- Modelled from the spec: `ApplicationController.list_applications`
(controller not under `src/`): `listApplications() -> [Application]`, the
full insertion-order sequence. -/
def ApplicationController.list_applications (st : AppState) :
    List Application :=
  st.applications

/-- Modelled from the spec: `ApplicationController.get_application_by_id`
(controller not under `src/`): `getApplication(id) -> Application|NotFound`,
with `none` standing for the not-found outcome. -/
def ApplicationController.get_application_by_id (st : AppState)
    (application_id : String) : Option Application :=
  st.applications.find? (fun a => a.id == application_id)

/-- Modelled from the spec: `ApplicationController.create_task`
(controller not under `src/`): `createTask(data) -> Task`, storing a new
roadmap item owned by the application named in the payload. -/
def ApplicationController.create_task (st : AppState) (d : TaskCreate) :
    RoadmapTask × AppState :=
  let t : RoadmapTask :=
    { id := taskIdOf st.nextTaskId
      application_id := d.application_id
      start_date := d.start_date
      end_date := d.end_date }
  (t, { st with
          tasks := st.tasks ++ [t]
          nextTaskId := st.nextTaskId + 1 })

/-- Modelled from the spec: `ApplicationController.get_task_by_id`
(controller not under `src/`): `getTask(id) -> Task|NotFound`. -/
def ApplicationController.get_task_by_id (st : AppState)
    (task_id : String) : Option RoadmapTask :=
  st.tasks.find? (fun t => t.id == task_id)

/-! ## The route layer (`src/api/routes.py`)

One definition per handler, each mirroring the Python body: a single
delegation to the controller, the result returned unchanged. Collaborator
state is passed explicitly. -/

/-- `GET /` handler: `return ScholarshipController.get_all_scholarships(limit)`
(`routes.py` line 16); the signature declares `limit: int = 100`. -/
def Routes.get_all_scholarships (db : ScholarshipDB) (limit : Int) :
    List Scholarship :=
  ScholarshipController.get_all_scholarships db limit

/-- `GET /search` handler:
`return ScholarshipController.search_scholarship(query, k=10)`
(`routes.py` line 35). -/
def Routes.search_scholarship (db : ScholarshipDB) (query : String) :
    List Scholarship :=
  ScholarshipController.search_scholarship db query 10

/-- `POST /applications` handler:
`return await ApplicationController.create_application(application_data)`
(`routes.py` line 57). -/
def Routes.create_application (st : AppState)
    (application_data : ApplicationCreate) : Application × AppState :=
  ApplicationController.create_application st application_data

/-- `GET /applications` handler:
`return await ApplicationController.list_applications()`
(`routes.py` line 65). -/
def Routes.list_applications (st : AppState) : List Application :=
  ApplicationController.list_applications st

/-- `GET /applications/{application_id}` handler:
`return await ApplicationController.get_application_by_id(application_id)`
(`routes.py` line 73). -/
def Routes.get_application_by_id (st : AppState)
    (application_id : String) : Option Application :=
  ApplicationController.get_application_by_id st application_id

/-- `POST /tasks` handler:
`return await ApplicationController.create_task(task_data)`
(`routes.py` line 98). -/
def Routes.create_task (st : AppState) (task_data : TaskCreate) :
    RoadmapTask × AppState :=
  ApplicationController.create_task st task_data

/-- `GET /tasks/{task_id}` handler:
`return await ApplicationController.get_task_by_id(task_id)`
(`routes.py` line 106). -/
def Routes.get_task_by_id (st : AppState) (task_id : String) :
    Option RoadmapTask :=
  ApplicationController.get_task_by_id st task_id

/-! ## The HTTP dispatch layer

Modelled from the spec: what the web framework does around each handler —
query-parameter defaulting, required-parameter and body-shape validation
(client error 422 before the handler runs), and mapping a not-found
outcome to client error 404. -/

/-- An HTTP outcome: success payload, a 4xx client error, or a 5xx server
error. -/
inductive HttpResponse (α : Type) where
  | ok (value : α)
  | clientError (code : Nat)
  | serverError (code : Nat)
deriving Repr, DecidableEq

/-- True exactly on 4xx outcomes. -/
def HttpResponse.isClientError {α : Type} : HttpResponse α → Bool
  | .clientError _ => true
  | _ => false

/-- True exactly on 5xx outcomes. -/
def HttpResponse.isServerError {α : Type} : HttpResponse α → Bool
  | .serverError _ => true
  | _ => false

/-- A raw request body: the JSON object fields that reached the server,
as key/value pairs. -/
structure RawBody where
  fields : List (String × String)
deriving Repr, DecidableEq

/-- Modelled from the spec: shape validation of a raw body against
`ApplicationCreate` (schema `core.models`, not under `src/`): both
required fields must be present. -/
def ApplicationCreate.parse (b : RawBody) : Option ApplicationCreate :=
  match List.lookup "scholarship_name" b.fields,
      List.lookup "applicant_name" b.fields with
  | some sn, some an => some { scholarship_name := sn, applicant_name := an }
  | _, _ => none

/-- Modelled from the spec: shape validation of a raw body against
`TaskCreate` (schema `core.models`, not under `src/`): all three required
fields must be present. -/
def TaskCreate.parse (b : RawBody) : Option TaskCreate :=
  match List.lookup "application_id" b.fields,
      List.lookup "start_date" b.fields,
      List.lookup "end_date" b.fields with
  | some a, some s, some e =>
    some { application_id := a, start_date := s, end_date := e }
  | _, _, _ => none

/-- Modelled from the spec: dispatch of `GET /`. An absent `limit` query
parameter is filled with the handler signature's default `100`; the
handler then runs. -/
def Api.GET_root (db : ScholarshipDB) (limit? : Option Int) :
    HttpResponse (List Scholarship) :=
  HttpResponse.ok (Routes.get_all_scholarships db (limit?.getD 100))

/-- Modelled from the spec: dispatch of `GET /search`. The handler
declares `query` as required (`Query(...)`) with no further constraint, so
the framework rejects a missing parameter with client error 422 and passes
any supplied string (the empty string included) to the handler. -/
def Api.GET_search (db : ScholarshipDB) (query? : Option String) :
    HttpResponse (List Scholarship) :=
  match query? with
  | none => HttpResponse.clientError 422
  | some q => HttpResponse.ok (Routes.search_scholarship db q)

/-- Modelled from the spec: dispatch of `POST /applications`. A body that
does not satisfy the `ApplicationCreate` shape is rejected with client
error 422 before any collaborator call; otherwise the handler runs and the
created record is returned. -/
def Api.POST_applications (st : AppState) (body : RawBody) :
    HttpResponse Application × AppState :=
  match ApplicationCreate.parse body with
  | none => (HttpResponse.clientError 422, st)
  | some d =>
    let r := Routes.create_application st d
    (HttpResponse.ok r.1, r.2)

/-- Modelled from the spec: dispatch of `GET /applications`. -/
def Api.GET_applications (st : AppState) :
    HttpResponse (List Application) :=
  HttpResponse.ok (Routes.list_applications st)

/-- Modelled from the spec: dispatch of `GET /applications/{application_id}`.
A not-found outcome from the collaborator is surfaced as client error 404. -/
def Api.GET_application_by_id (st : AppState) (application_id : String) :
    HttpResponse Application :=
  match Routes.get_application_by_id st application_id with
  | none => HttpResponse.clientError 404
  | some a => HttpResponse.ok a

/-- Modelled from the spec: dispatch of `POST /tasks`. A body that does
not satisfy the `TaskCreate` shape is rejected with client error 422
before any collaborator call. -/
def Api.POST_tasks (st : AppState) (body : RawBody) :
    HttpResponse RoadmapTask × AppState :=
  match TaskCreate.parse body with
  | none => (HttpResponse.clientError 422, st)
  | some d =>
    let r := Routes.create_task st d
    (HttpResponse.ok r.1, r.2)

/-- Modelled from the spec: dispatch of `GET /tasks/{task_id}`. A
not-found outcome is surfaced as client error 404. -/
def Api.GET_task_by_id (st : AppState) (task_id : String) :
    HttpResponse RoadmapTask :=
  match Routes.get_task_by_id st task_id with
  | none => HttpResponse.clientError 404
  | some t => HttpResponse.ok t

/-! ## Helper lemmas -/

theorem mem_insertRanked (score : Scholarship → Nat) (s x : Scholarship)
    (l : List Scholarship) : x ∈ insertRanked score s l ↔ x = s ∨ x ∈ l := by
  induction l with
  | nil => simp [insertRanked]
  | cons t ts ih =>
    by_cases h : score t < score s
    · simp only [insertRanked, if_pos h, List.mem_cons]
    · simp only [insertRanked, if_neg h, List.mem_cons, ih]
      tauto

theorem pairwise_insertRanked (score : Scholarship → Nat) (s : Scholarship)
    (l : List Scholarship)
    (h : l.Pairwise (fun a b => score b ≤ score a)) :
    (insertRanked score s l).Pairwise (fun a b => score b ≤ score a) := by
  induction l with
  | nil => simp [insertRanked]
  | cons t ts ih =>
    rcases List.pairwise_cons.mp h with ⟨ht, hts⟩
    by_cases hlt : score t < score s
    · simp only [insertRanked, if_pos hlt]
      refine List.pairwise_cons.mpr ⟨?_, h⟩
      intro y hy
      rcases List.mem_cons.mp hy with rfl | hy'
      · exact Nat.le_of_lt hlt
      · exact le_trans (ht y hy') (Nat.le_of_lt hlt)
    · simp only [insertRanked, if_neg hlt]
      refine List.pairwise_cons.mpr ⟨?_, ih hts⟩
      intro y hy
      rcases (mem_insertRanked score s y ts).mp hy with rfl | hy'
      · exact Nat.le_of_not_lt hlt
      · exact ht y hy'

theorem pairwise_rankedBy (score : Scholarship → Nat) (l : List Scholarship) :
    (rankedBy score l).Pairwise (fun a b => score b ≤ score a) := by
  induction l with
  | nil => simp [rankedBy]
  | cons t ts ih =>
    simp only [rankedBy, List.foldr_cons] at *
    exact pairwise_insertRanked score t _ ih

theorem mem_rankedBy (score : Scholarship → Nat) (x : Scholarship)
    (l : List Scholarship) : x ∈ rankedBy score l ↔ x ∈ l := by
  induction l with
  | nil => simp [rankedBy]
  | cons t ts ih =>
    simp only [rankedBy, List.foldr_cons] at *
    rw [mem_insertRanked]
    simp [ih]

theorem find_append_fresh {α : Type} (p : α → Bool) (l : List α) (a : α)
    (hl : ∀ x ∈ l, p x = false) (ha : p a = true) :
    (l ++ [a]).find? p = some a := by
  induction l with
  | nil => simp [List.find?, ha]
  | cons b t ih =>
    have hb := hl b (List.mem_cons_self b t)
    simp only [List.cons_append, List.find?, hb]
    exact ih (fun x hx => hl x (List.mem_cons_of_mem b hx))

theorem find_key_unique {α : Type} (key : α → String) (l : List α)
    (i : String) (a : α) (hnd : (l.map key).Nodup) (ha : a ∈ l)
    (hk : key a = i) : l.find? (fun x => key x == i) = some a := by
  induction l with
  | nil => cases ha
  | cons b t ih =>
    rw [List.map_cons, List.nodup_cons] at hnd
    rcases List.mem_cons.mp ha with rfl | hat
    · have hpa : (key a == i) = true := by simp [hk]
      simp [List.find?, hpa]
    · have hbne : (key b == i) = false := by
        rw [beq_eq_false_iff_ne]
        intro hbi
        exact hnd.1 (by rw [hbi, ← hk]; exact List.mem_map_of_mem key hat)
      simp only [List.find?, hbne]
      exact ih hnd.2 hat

theorem filter_key_singleton {α : Type} (key : α → String) (l : List α)
    (i : String) (a : α) (hnd : (l.map key).Nodup) (ha : a ∈ l)
    (hk : key a = i) : l.filter (fun x => key x == i) = [a] := by
  induction l with
  | nil => cases ha
  | cons b t ih =>
    rw [List.map_cons, List.nodup_cons] at hnd
    rcases List.mem_cons.mp ha with rfl | hat
    · have hpa : (key a == i) = true := by simp [hk]
      have hrest : t.filter (fun x => key x == i) = [] := by
        rw [List.filter_eq_nil_iff]
        intro x hx hxi
        have hxa : key x = key a := by
          rw [beq_iff_eq.mp hxi, hk]
        exact hnd.1 (hxa ▸ List.mem_map_of_mem key hx)
      simp [List.filter, hpa, hrest]
    · have hbne : (key b == i) = false := by
        rw [beq_eq_false_iff_ne]
        intro hbi
        exact hnd.1 (by rw [hbi, ← hk]; exact List.mem_map_of_mem key hat)
      simp only [List.filter, hbne]
      exact ih hnd.2 hat

/-! ## Concrete instances used by witnesses and counterexamples -/

/-- A relevance test that matches a scholarship when its country equals the
query (one admissible semantic engine for country-named queries). -/
def exRel (q : String) (s : Scholarship) : Bool := s.country == q

/-- A relevance score paired with `exRel`. -/
def exScore (q : String) (s : Scholarship) : Nat :=
  if s.country == q then 1 else 0

/-- A Swedish scholarship record. -/
def swedenScholarship : Scholarship :=
  { name := "Lund Grant", deadline := "2026-01-01",
    eligibility := "MSc", country := "Sweden" }

/-- A Norwegian scholarship record. -/
def norwayScholarship : Scholarship :=
  { name := "Oslo Grant", deadline := "2026-02-01",
    eligibility := "BSc", country := "Norway" }

/-- A two-country scholarship collaborator state. -/
def exDB : ScholarshipDB :=
  { corpus := [swedenScholarship, norwayScholarship],
    rel := exRel, score := exScore }

/-- A scholarship collaborator state whose corpus holds 101 records. -/
def bigDB : ScholarshipDB :=
  { corpus := List.replicate 101 swedenScholarship,
    rel := exRel, score := exScore }

/-- A stored application record. -/
def exApp : Application :=
  { id := "app-0", scholarship_name := "Lund Grant",
    applicant_name := "Ada", status := "created" }

/-- An application/task store holding one application and no task. -/
def exState : AppState :=
  { applications := [exApp], tasks := [], nextAppId := 1, nextTaskId := 1 }

/-- The empty application/task store. -/
def emptyState : AppState :=
  { applications := [], tasks := [], nextAppId := 0, nextTaskId := 0 }

/-- A well-shaped `POST /applications` body. -/
def exBody : RawBody :=
  { fields := [("scholarship_name", "Lund Grant"), ("applicant_name", "Ada")] }

/-- The payload `exBody` parses to. -/
def exCreate : ApplicationCreate :=
  { scholarship_name := "Lund Grant", applicant_name := "Ada" }

/-- A well-shaped `POST /tasks` payload referencing `exApp`. -/
def exTaskCreate : TaskCreate :=
  { application_id := "app-0", start_date := "2025-11-01",
    end_date := "2025-12-01" }

/-! ## Claims -/

/-- C1: every handler of the route layer (`get_all_scholarships`,
`search_scholarship`, `create_application`, `list_applications`,
`get_application_by_id`, `create_task`, `get_task_by_id`) delegates
immediately to the corresponding controller method and returns its result
unchanged on all inputs: each handler is extensionally equal to the
collaborator method on the forwarded arguments, with no transformation,
filtering, or added logic. -/
theorem routes_delegate_unchanged (db : ScholarshipDB) (st : AppState)
    (limit : Int) (query application_id task_id : String)
    (application_data : ApplicationCreate) (task_data : TaskCreate) :
    Routes.get_all_scholarships db limit =
      ScholarshipController.get_all_scholarships db limit ∧
    Routes.search_scholarship db query =
      ScholarshipController.search_scholarship db query 10 ∧
    Routes.create_application st application_data =
      ApplicationController.create_application st application_data ∧
    Routes.list_applications st = ApplicationController.list_applications st ∧
    Routes.get_application_by_id st application_id =
      ApplicationController.get_application_by_id st application_id ∧
    Routes.create_task st task_data =
      ApplicationController.create_task st task_data ∧
    Routes.get_task_by_id st task_id =
      ApplicationController.get_task_by_id st task_id :=
  ⟨rfl, rfl, rfl, rfl, rfl, rfl, rfl⟩

/-- C4 counterexample: the claim says the search endpoint fails with a
client error exactly when `query` is absent or empty; but an explicitly
supplied empty query is NOT rejected — it is delegated and answered with a
success response. -/
theorem search_empty_query_counterexample :
    (Api.GET_search exDB (some "")).isClientError = false ∧
    Api.GET_search exDB (some "") =
      HttpResponse.ok (Routes.search_scholarship exDB "") :=
  ⟨rfl, rfl⟩

/-- C4 (amended): the search endpoint fails with a client error exactly
when `query` is absent; any present query — the empty string included —
is delegated to the collaborator without error. -/
theorem search_client_error_iff_query_absent (db : ScholarshipDB)
    (query? : Option String) :
    ((Api.GET_search db query?).isClientError = true ↔ query? = none) ∧
    ∀ q : String, Api.GET_search db (some q) =
      HttpResponse.ok (Routes.search_scholarship db q) := by
  refine ⟨?_, fun q => rfl⟩
  cases query? <;> simp [Api.GET_search, HttpResponse.isClientError]

/-- C5: for every query the search handler forwards the query to the
scholarship collaborator with the constant k=10, and the returned sequence
holds at most 10 records, ordered by descending relevance score. -/
theorem search_forwards_k10_top10_ranked (db : ScholarshipDB)
    (query : String) :
    Routes.search_scholarship db query =
      ScholarshipController.search_scholarship db query 10 ∧
    (Routes.search_scholarship db query).length ≤ 10 ∧
    (Routes.search_scholarship db query).Pairwise
      (fun a b => db.score query b ≤ db.score query a) := by
  refine ⟨rfl, ?_, ?_⟩
  · exact List.length_take_le 10 _
  · exact List.Pairwise.sublist (List.take_sublist 10 _)
      (pairwise_rankedBy (db.score query) _)

/-- C6: `limit` defaults to 100 when the query parameter is omitted and is
forwarded to the collaborator as given; the returned sequence has length
at most `limit` (read as a natural bound); and the intended maximum of 100
is not enforced for explicitly supplied values: a corpus of 101 records
with `limit = 101` yields all 101 records. -/
theorem get_all_scholarships_limit_behavior (db : ScholarshipDB)
    (limit : Int) :
    Api.GET_root db none =
      HttpResponse.ok (Routes.get_all_scholarships db 100) ∧
    Api.GET_root db (some limit) =
      HttpResponse.ok (ScholarshipController.get_all_scholarships db limit) ∧
    (Routes.get_all_scholarships db limit).length ≤ limit.toNat ∧
    (Routes.get_all_scholarships bigDB 101).length = 101 := by
  refine ⟨rfl, rfl, ?_, ?_⟩
  · exact List.length_take_le _ _
  · simp [Routes.get_all_scholarships,
      ScholarshipController.get_all_scholarships, bigDB]

/-- C10: the route layer rejects only a missing `query` parameter on
`GET /search`; an explicitly supplied empty string is accepted and
delegated to the collaborator unchanged (with k=10) rather than rejected
with a client error, since the handler declares the parameter as required
with no non-emptiness constraint. -/
theorem empty_query_accepted_only_missing_rejected (db : ScholarshipDB) :
    Api.GET_search db (some "") =
      HttpResponse.ok (ScholarshipController.search_scholarship db "" 10) ∧
    (Api.GET_search db (some "")).isClientError = false ∧
    ∀ query? : Option String,
      (Api.GET_search db query?).isClientError = true ↔ query? = none := by
  refine ⟨rfl, rfl, ?_⟩
  intro query?
  cases query? <;> simp [Api.GET_search, HttpResponse.isClientError]

/-- C2: a request body that does not satisfy the required shape
(`ApplicationCreate` for POST /applications, `TaskCreate` for POST /tasks)
is rejected with a client-side validation error raised before any
collaborator call, and no record is created: the collaborator state — as
observed by a subsequent list — is unchanged. -/
theorem post_invalid_body_rejected (st : AppState) (ba bt : RawBody)
    (hA : ApplicationCreate.parse ba = none)
    (hT : TaskCreate.parse bt = none) :
    (Api.POST_applications st ba).1 = HttpResponse.clientError 422 ∧
    (Api.POST_applications st ba).2 = st ∧
    Routes.list_applications (Api.POST_applications st ba).2 =
      Routes.list_applications st ∧
    (Api.POST_tasks st bt).1 = HttpResponse.clientError 422 ∧
    (Api.POST_tasks st bt).2 = st := by
  simp [Api.POST_applications, Api.POST_tasks, hA, hT]

/-- C2 witness: the empty body fails shape validation on both POST
endpoints and leaves the store untouched. -/
theorem post_invalid_body_rejected_witness :
    (Api.POST_applications exState { fields := [] }).1 =
      HttpResponse.clientError 422 ∧
    (Api.POST_applications exState { fields := [] }).2 = exState ∧
    (Api.POST_tasks exState { fields := [] }).1 =
      HttpResponse.clientError 422 := by
  have h := post_invalid_body_rejected exState { fields := [] }
    { fields := [] } rfl rfl
  exact ⟨h.1, h.2.1, h.2.2.2.1⟩

/-- C3: for every identifier that resolves to no application (resp. no
task), the get-by-id endpoint yields a not-found response classified as a
client error and not a server error; and when the identifier does resolve
(ids being distinct in the store), the single matching entity is
returned. -/
theorem get_by_id_not_found_or_single (st : AppState) (aid tid : String) :
    ((∀ a ∈ st.applications, a.id ≠ aid) →
      Api.GET_application_by_id st aid = HttpResponse.clientError 404 ∧
      (Api.GET_application_by_id st aid).isClientError = true ∧
      (Api.GET_application_by_id st aid).isServerError = false) ∧
    (∀ a, a ∈ st.applications → a.id = aid →
      (st.applications.map Application.id).Nodup →
      Api.GET_application_by_id st aid = HttpResponse.ok a) ∧
    ((∀ t ∈ st.tasks, t.id ≠ tid) →
      Api.GET_task_by_id st tid = HttpResponse.clientError 404 ∧
      (Api.GET_task_by_id st tid).isClientError = true ∧
      (Api.GET_task_by_id st tid).isServerError = false) ∧
    (∀ t, t ∈ st.tasks → t.id = tid →
      (st.tasks.map RoadmapTask.id).Nodup →
      Api.GET_task_by_id st tid = HttpResponse.ok t) := by
  refine ⟨?_, ?_, ?_, ?_⟩
  · intro h
    have hf : st.applications.find? (fun a => a.id == aid) = none :=
      List.find?_eq_none.mpr (fun x hx => by simpa using h x hx)
    simp [Api.GET_application_by_id, Routes.get_application_by_id,
      ApplicationController.get_application_by_id, hf,
      HttpResponse.isClientError, HttpResponse.isServerError]
  · intro a ha hid hnd
    have hf := find_key_unique Application.id st.applications aid a hnd ha hid
    simp [Api.GET_application_by_id, Routes.get_application_by_id,
      ApplicationController.get_application_by_id, hf]
  · intro h
    have hf : st.tasks.find? (fun t => t.id == tid) = none :=
      List.find?_eq_none.mpr (fun x hx => by simpa using h x hx)
    simp [Api.GET_task_by_id, Routes.get_task_by_id,
      ApplicationController.get_task_by_id, hf,
      HttpResponse.isClientError, HttpResponse.isServerError]
  · intro t ht hid hnd
    have hf := find_key_unique RoadmapTask.id st.tasks tid t hnd ht hid
    simp [Api.GET_task_by_id, Routes.get_task_by_id,
      ApplicationController.get_task_by_id, hf]

/-- C3 witness: in a store holding exactly `exApp`, fetching `app-0`
returns it while fetching unknown identifiers yields 404 on both the
application and the task endpoint. -/
theorem get_by_id_not_found_or_single_witness :
    Api.GET_application_by_id exState "app-0" = HttpResponse.ok exApp ∧
    Api.GET_application_by_id exState "missing" =
      HttpResponse.clientError 404 ∧
    Api.GET_task_by_id exState "missing" = HttpResponse.clientError 404 := by
  refine ⟨?_, ?_, ?_⟩
  · exact (get_by_id_not_found_or_single exState "app-0" "missing").2.1 exApp
      (by decide) (by decide) (by decide)
  · exact ((get_by_id_not_found_or_single exState "missing" "missing").1
      (by decide)).1
  · exact ((get_by_id_not_found_or_single exState "missing" "missing").2.2.1
      (by decide)).1

/-- C7: under the spec's semantic contract for country-named queries — a
record is relevant to "Sweden" only if its country field is Sweden — the
search endpoint returns only Swedish records for the query "Sweden", and
at most 10 of them. -/
theorem search_sweden_only_sweden (db : ScholarshipDB)
    (hrel : ∀ s, db.rel "Sweden" s = true → s.country = "Sweden") :
    (∀ s ∈ Routes.search_scholarship db "Sweden", s.country = "Sweden") ∧
    (Routes.search_scholarship db "Sweden").length ≤ 10 := by
  constructor
  · intro s hs
    simp only [Routes.search_scholarship,
      ScholarshipController.search_scholarship] at hs
    have hs1 := (List.take_sublist 10 _).subset hs
    have hs2 := (mem_rankedBy (db.score "Sweden") s _).mp hs1
    exact hrel s (List.of_mem_filter hs2)
  · exact List.length_take_le 10 _

/-- C7 witness: with a country-equality relevance engine over a corpus
holding one Swedish and one Norwegian record, the "Sweden" search leaks no
foreign record and returns at most 10. -/
theorem search_sweden_only_sweden_witness :
    (∀ s ∈ Routes.search_scholarship exDB "Sweden", s.country = "Sweden") ∧
    (Routes.search_scholarship exDB "Sweden").length ≤ 10 :=
  search_sweden_only_sweden exDB
    (fun s h => by simpa [exDB, exRel] using h)

/-- Round-trip at the collaborator level: a freshly created application is
found again under the identifier assigned at creation, provided no stored
record already carries that fresh identifier. -/
theorem create_application_roundtrip (st : AppState) (d : ApplicationCreate)
    (hfresh : ∀ a ∈ st.applications, a.id ≠ appIdOf st.nextAppId) :
    ApplicationController.get_application_by_id
        (ApplicationController.create_application st d).2
        (ApplicationController.create_application st d).1.id =
      some (ApplicationController.create_application st d).1 := by
  show (st.applications ++ [(ApplicationController.create_application st d).1]).find?
      (fun a => a.id == (ApplicationController.create_application st d).1.id) =
    some (ApplicationController.create_application st d).1
  apply find_append_fresh
  · intro x hx
    exact beq_eq_false_iff_ne.mpr (hfresh x hx)
  · exact beq_self_eq_true _

/-- C8: creating an application through POST /applications from a valid
body and then immediately fetching by the identifier returned in the
created record yields that same record (the store assigning a fresh
identifier at creation). -/
theorem create_then_fetch_roundtrip (st : AppState) (body : RawBody)
    (d : ApplicationCreate)
    (hparse : ApplicationCreate.parse body = some d)
    (hfresh : ∀ a ∈ st.applications, a.id ≠ appIdOf st.nextAppId) :
    (Api.POST_applications st body).1 =
      HttpResponse.ok (ApplicationController.create_application st d).1 ∧
    Api.GET_application_by_id (Api.POST_applications st body).2
        (ApplicationController.create_application st d).1.id =
      HttpResponse.ok (ApplicationController.create_application st d).1 := by
  have h1 : Api.POST_applications st body =
      (HttpResponse.ok (ApplicationController.create_application st d).1,
        (ApplicationController.create_application st d).2) := by
    simp [Api.POST_applications, hparse, Routes.create_application]
  have h2 := create_application_roundtrip st d hfresh
  refine ⟨by rw [h1], ?_⟩
  rw [h1]
  simp only [Api.GET_application_by_id, Routes.get_application_by_id]
  rw [h2]

/-- C8 witness: posting `exBody` to the empty store and fetching the
returned identifier yields the created record. -/
theorem create_then_fetch_roundtrip_witness :
    (Api.POST_applications emptyState exBody).1 =
      HttpResponse.ok
        (ApplicationController.create_application emptyState exCreate).1 ∧
    Api.GET_application_by_id (Api.POST_applications emptyState exBody).2
        (ApplicationController.create_application emptyState exCreate).1.id =
      HttpResponse.ok
        (ApplicationController.create_application emptyState exCreate).1 :=
  create_then_fetch_roundtrip emptyState exBody exCreate (by decide)
    (by decide)

/-- C9: for every `TaskCreate` payload referencing a known application, the
task returned by the create-task handler carries an owning application
identifier equal to the one in the payload, and (the store's application
identifiers being distinct) exactly one stored application matches it: the
task belongs to exactly one application. -/
theorem created_task_owned_by_application (st : AppState) (d : TaskCreate)
    (hknown : ∃ a ∈ st.applications, a.id = d.application_id)
    (hnd : (st.applications.map Application.id).Nodup) :
    (Routes.create_task st d).1.application_id = d.application_id ∧
    (st.applications.filter
        (fun a => a.id ==
          (Routes.create_task st d).1.application_id)).length = 1 := by
  obtain ⟨a, ha, hid⟩ := hknown
  refine ⟨rfl, ?_⟩
  have h := filter_key_singleton Application.id st.applications
    d.application_id a hnd ha hid
  show (st.applications.filter
    (fun a => a.id == d.application_id)).length = 1
  rw [h]
  rfl

/-- C9 witness: creating a task referencing `app-0` in a store holding
exactly that application. -/
theorem created_task_owned_by_application_witness :
    (Routes.create_task exState exTaskCreate).1.application_id =
      exTaskCreate.application_id ∧
    (exState.applications.filter
        (fun a => a.id ==
          (Routes.create_task exState exTaskCreate).1.application_id)).length
      = 1 :=
  created_task_owned_by_application exState exTaskCreate
    ⟨exApp, by decide, by decide⟩ (by decide)
